import Mathlib

/-!
Verification of the pipeline orchestration layer of the A2A agentic workflow
repository: multi-source record multiplexing, per-record isolated execution,
severity classification, severity-gated forwarding, tool-call telemetry, the
cost ledger and the incremental response encoder.

All definitions are shallow embeddings of the Python source.  Python strings
are modelled as Lean `String`; `str.upper()` and `str.lower()` are modelled
character-wise over ASCII (the Unicode special cases of the Python functions,
such as the eszett expansion, are outside the model).  Python machine floats
are modelled by exact rationals, with `round(x, 6)` modelled as rounding to
the nearest multiple of 10^-6.
-/

namespace A2AWorkflow

/-! ## Definitions: the shallow embedding of the source -/

/-- The four severity levels of the pipeline.  From the severity strings used
in `machine1_log_analysis/agent_gemini.py` lines 331-353. -/
inductive Severity
  | LOW
  | MEDIUM
  | HIGH
  | CRITICAL
deriving DecidableEq

/-- Descending-severity order in which the classifier checks keywords
(`machine1_log_analysis/agent_gemini.py` lines 346-353). -/
def sevLevelsDesc : List Severity :=
  [Severity.CRITICAL, Severity.HIGH, Severity.MEDIUM, Severity.LOW]

/-- The upper-case keyword of each level, as used by the classifier. -/
def sevKeyword : Severity → String
  | Severity.CRITICAL => "CRITICAL"
  | Severity.HIGH => "HIGH"
  | Severity.MEDIUM => "MEDIUM"
  | Severity.LOW => "LOW"

/-- Numeric rank of a level in the total order LOW < MEDIUM < HIGH < CRITICAL. -/
def sevRank : Severity → Nat
  | Severity.LOW => 0
  | Severity.MEDIUM => 1
  | Severity.HIGH => 2
  | Severity.CRITICAL => 3

/-- The characters Python `str.strip()` removes (ASCII whitespace). -/
def isPySpace (c : Char) : Bool :=
  c = ' ' || c = '\t' || c = '\n' || c = '\r' || c = '\x0b' || c = '\x0c'

/-- Truthiness of `response_text and response_text.strip()` in Python: the
string holds at least one non-whitespace character. -/
def truthyStripped (s : String) : Bool :=
  s.data.any (fun c => !isPySpace c)

/-- Character-wise model of Python `str.upper()` (ASCII). -/
def pyUpper (s : String) : String :=
  ⟨s.data.map Char.toUpper⟩

/-- Character-wise model of Python `str.lower()` (ASCII). -/
def pyLower (s : String) : String :=
  ⟨s.data.map Char.toLower⟩

/-- `chrListStarts hay needle` holds when `needle` is an initial segment of
`hay`. -/
def chrListStarts : List Char → List Char → Bool
  | _, [] => true
  | [], _ :: _ => false
  | c :: cs, d :: ds => c = d && chrListStarts cs ds

/-- `chrListHasSub hay needle` holds when `needle` occurs as a contiguous
segment of `hay`. -/
def chrListHasSub : List Char → List Char → Bool
  | [], needle => needle.isEmpty
  | c :: cs, needle => chrListStarts (c :: cs) needle || chrListHasSub cs needle

/-- Model of the Python substring test `needle in haystack`. -/
def containsSub (haystack needle : String) : Bool :=
  chrListHasSub haystack.data needle.data

/-- The severity classifier of `machine1_log_analysis/agent_gemini.py`
lines 331-353: on truthy text, if the upper-cased text holds the substring
`RISK ASSESSMENT:` only the four labelled forms are tried (no fallback);
otherwise the four keywords are tried in descending severity order. -/
def classifySeverity (response_text : String) : Option Severity :=
  if truthyStripped response_text then
    let text_upper := pyUpper response_text
    if containsSub text_upper "RISK ASSESSMENT:" then
      if containsSub text_upper "RISK ASSESSMENT: CRITICAL" then some Severity.CRITICAL
      else if containsSub text_upper "RISK ASSESSMENT: HIGH" then some Severity.HIGH
      else if containsSub text_upper "RISK ASSESSMENT: MEDIUM" then some Severity.MEDIUM
      else if containsSub text_upper "RISK ASSESSMENT: LOW" then some Severity.LOW
      else none
    else if containsSub text_upper "CRITICAL" then some Severity.CRITICAL
    else if containsSub text_upper "HIGH" then some Severity.HIGH
    else if containsSub text_upper "MEDIUM" then some Severity.MEDIUM
    else if containsSub text_upper "LOW" then some Severity.LOW
    else none
  else none

/-- Rendering of the spec wording for the keyword fallback (spec section 4.3,
step 2), used to compare the source classifier against the spec: the most
severe level keyword present anywhere in the (already upper-cased) text,
`none` when no keyword occurs. -/
def mostSevereKeyword (text_upper : String) : Option Severity :=
  (sevLevelsDesc.filter (fun l => containsSub text_upper (sevKeyword l))).head?

/-- A CSV record: ordered field-name/value pairs as produced by
`csv.DictReader`. -/
abbrev Record := List (String × String)

/-- Outcome of one reasoning-engine turn for one record. -/
inductive EngineResult
  | ok (text : String) (functionCalls : Nat) (a2aCalls : Nat)
  | raised (msg : String)
deriving DecidableEq

/-- Whether the engine turn raised. -/
def EngineResult.isRaised : EngineResult → Bool
  | EngineResult.ok _ _ _ => false
  | EngineResult.raised _ => true

/-- One element of the streamed `results` array: the success payload of
line 397 or the error payload of line 412. -/
inductive StreamEvent
  | success (row : Nat) (source device_id response : String) (severity : Option Severity)
  | error (row : Nat) (source device_id msg : String)
deriving DecidableEq

/-- `row.get("Device_ID", row.get("Model", "unknown"))` of lines 230/400. -/
def deviceId (row : Record) : String :=
  match row.lookup "Device_ID" with
  | some v => v
  | none =>
    match row.lookup "Model" with
    | some v => v
    | none => "unknown"

/-- The record session executor (lines 248-417): one record, one fresh
session, one engine turn, one stream event.  A raising engine turn is caught
by the `except` of line 407 and becomes the error payload of that record; a
completed turn becomes the success payload carrying the classified
severity. -/
def processRow (eng : Record → EngineResult) (rowNum : Nat) (src : String)
    (row : Record) : StreamEvent :=
  match eng row with
  | EngineResult.raised msg => StreamEvent.error rowNum src (deviceId row) msg
  | EngineResult.ok text _ _ =>
    StreamEvent.success rowNum src (deviceId row) text (classifySeverity text)

/-- The forwarding gate condition of line 364:
`severity in ['MEDIUM', 'HIGH', 'CRITICAL']`. -/
def a2aRequired (severity : Option Severity) : Bool :=
  severity = some Severity.MEDIUM || severity = some Severity.HIGH ||
    severity = some Severity.CRITICAL

/-- The post-response indicator substrings of lines 369-375 used to detect an
embedded diagnosis-agent response. -/
def a2aIndicators : List String :=
  ["diagnosis_agent:", "Remediation Status:", "Device Type:", "Actions Taken:",
    "Results Summary:"]

/-- `any(indicator in response_text for indicator in a2a_indicators)` of
line 384. -/
def a2aDetected (response_text : String) : Bool :=
  a2aIndicators.any (fun ind => containsSub response_text ind)

/-- The number of inter-agent forwarding calls issued to the next stage while
one record is processed.  `row_generator` issues none itself; forwarding
happens only inside the engine turn (the ADK-managed sub-agent call), so the
count is the `a2aCalls` component of the engine outcome, independent of the
severity classified afterwards. -/
def downstreamCalls (eng : Record → EngineResult) (row : Record) : Nat :=
  match eng row with
  | EngineResult.ok _ _ a2aCalls => a2aCalls
  | EngineResult.raised _ => 0

/-- An open reader over one source (lines 214-218): the remaining rows and
the source path. -/
structure Cursor where
  rows : List Record
  source : String
deriving DecidableEq

/-- Termination measure for the round-robin loop: every pass over a non-empty
reader list either consumes a row or removes an exhausted reader. -/
def passMeasure (cs : List Cursor) : Nat :=
  (cs.map (fun c => c.rows.length + 1)).sum

/-- One full pass of the round-robin loop (lines 222-246 and 419-421): each
reader in original order either yields its next row (tagged with the running
global row count) or, when exhausted, is dropped from the rotation. -/
def multiplexPass : Nat → List Cursor → List (Nat × String × Record) × List Cursor × Nat
  | rc, [] => ([], [], rc)
  | rc, c :: rest =>
    match c.rows with
    | [] => multiplexPass rc rest
    | r :: more =>
      let out := multiplexPass (rc + 1) rest
      ((rc + 1, c.source, r) :: out.1, ⟨more, c.source⟩ :: out.2.1, out.2.2)

/-- Termination fact for the round-robin loop, stated as a definition of a
proof because the recursive definition of the loop below invokes it. -/
def multiplexPass_measure_le (rc : Nat) (cs : List Cursor) :
    passMeasure (multiplexPass rc cs).2.1 ≤ passMeasure cs := by
  induction cs generalizing rc with
  | nil => simp [multiplexPass, passMeasure]
  | cons c rest ih =>
    cases hr : c.rows with
    | nil =>
      simp only [multiplexPass, hr]
      calc passMeasure (multiplexPass rc rest).2.1 ≤ passMeasure rest := ih rc
        _ ≤ passMeasure (c :: rest) := by simp [passMeasure]
    | cons r more =>
      simp only [multiplexPass, hr, passMeasure, List.map_cons, List.sum_cons,
        List.length_cons]
      have := ih (rc + 1)
      simp only [passMeasure] at this
      omega

/-- Termination fact for the round-robin loop, stated as a definition of a
proof because the recursive definition of the loop below invokes it. -/
def multiplexPass_measure_lt (rc : Nat) (cs : List Cursor) (h : cs ≠ []) :
    passMeasure (multiplexPass rc cs).2.1 < passMeasure cs := by
  cases cs with
  | nil => exact absurd rfl h
  | cons c rest =>
    cases hr : c.rows with
    | nil =>
      simp only [multiplexPass, hr]
      calc passMeasure (multiplexPass rc rest).2.1 ≤ passMeasure rest :=
            multiplexPass_measure_le rc rest
        _ < passMeasure (c :: rest) := by
            simp only [passMeasure, List.map_cons, List.sum_cons]
            omega
    | cons r more =>
      simp only [multiplexPass, hr, passMeasure, List.map_cons, List.sum_cons,
        List.length_cons]
      have := multiplexPass_measure_le (rc + 1) rest
      simp only [passMeasure] at this
      omega

/-- The full round-robin interleave (the `while readers:` loop of line 222):
repeated passes until the active reader set is empty.  Produces the merged
stream of records, each tagged with its source path and its 1-based sequence
number in the merged stream. -/
def multiplexLoop (rc : Nat) (cs : List Cursor) : List (Nat × String × Record) :=
  if h : cs = [] then []
  else
    let out := multiplexPass rc cs
    out.1 ++ multiplexLoop out.2.2 out.2.1
termination_by passMeasure cs
decreasing_by exact multiplexPass_measure_lt rc cs h

/-- The merged record stream of a list of sources, starting from row count
zero (line 207). -/
def multiplex (sources : List (List Record × String)) : List (Nat × String × Record) :=
  multiplexLoop 0 (sources.map (fun s => ⟨s.1, s.2⟩))

/-- The event stream of `row_generator` over already-opened sources: one
stream event per multiplexed record, in merged-stream order.  The source
interleaves reading and per-record processing in one fused loop; reading from
a pure row list has no side effect and processing does not alter the reading
order, so the fused loop yields the same event sequence as mapping the
session executor over the multiplexed stream. -/
def rowGeneratorEvents (eng : Record → EngineResult)
    (sources : List (List Record × String)) : List StreamEvent :=
  (multiplex sources).map (fun t => processRow eng t.1 t.2.1 t.2.2)

/-- Event classifying helper: is the event the error payload. -/
def isErrorEvent : StreamEvent → Bool
  | StreamEvent.error _ _ _ _ => true
  | StreamEvent.success _ _ _ _ _ => false

/-- Event classifying helper: is the event a success payload. -/
def isSuccessEvent : StreamEvent → Bool
  | StreamEvent.success _ _ _ _ _ => true
  | StreamEvent.error _ _ _ _ => false

/-- Event classifying helper: is the event a success payload carrying the
given severity value. -/
def eventSeverityIs (s : Option Severity) : StreamEvent → Bool
  | StreamEvent.success _ _ _ _ s2 => s2 = s
  | StreamEvent.error _ _ _ _ => false

/-- Event classifying helper: is the event a success payload whose severity
is not null. -/
def isClassifiedSuccess : StreamEvent → Bool
  | StreamEvent.success _ _ _ _ (some _) => true
  | StreamEvent.success _ _ _ _ none => false
  | StreamEvent.error _ _ _ _ => false

/-- A per-record weight summed over all remaining rows of all cursors. -/
def cursorsWeight (w : Record → Nat) (cs : List Cursor) : Nat :=
  (cs.map (fun c => (c.rows.map w).sum)).sum

/-- The four-bucket dictionary
`severity_counts = {"LOW": 0, "MEDIUM": 0, "HIGH": 0, "CRITICAL": 0}` of
line 204. -/
structure SeverityCounts where
  low : Nat
  medium : Nat
  high : Nat
  critical : Nat
deriving DecidableEq

/-- The update `if severity in severity_counts: severity_counts[severity] += 1`
of lines 390-391: a null severity is not a key of the dictionary, so it
increments no bucket. -/
def bumpSeverityCounts (c : SeverityCounts) : Option Severity → SeverityCounts
  | some Severity.LOW => { c with low := c.low + 1 }
  | some Severity.MEDIUM => { c with medium := c.medium + 1 }
  | some Severity.HIGH => { c with high := c.high + 1 }
  | some Severity.CRITICAL => { c with critical := c.critical + 1 }
  | none => c

/-- One event contributes to the counts only on the success path (the bump
lies inside the `try` of line 248, before the success payload is yielded);
the error path of line 407 never touches the dictionary. -/
def countsStep (c : SeverityCounts) : StreamEvent → SeverityCounts
  | StreamEvent.success _ _ _ _ s => bumpSeverityCounts c s
  | StreamEvent.error _ _ _ _ => c

/-- The final value of `severity_counts` after a completed stream: the
per-success-event bumps applied in emission order. -/
def finalSeverityCounts (events : List StreamEvent) : SeverityCounts :=
  events.foldl countsStep ⟨0, 0, 0, 0⟩

/-- A declared source as the generator sees it when opening. -/
inductive SourceHandle
  | openable (rows : List Record) (path : String)
  | unopenable (path : String)
deriving DecidableEq

/-- The `open(source_path)` loop of lines 213-218: sources are opened in
declaration order and the first failing open raises. -/
def openSources : List SourceHandle → Except String (List Cursor)
  | [] => Except.ok []
  | SourceHandle.openable rows p :: rest =>
    (openSources rest).map (fun cs => ⟨rows, p⟩ :: cs)
  | SourceHandle.unopenable p :: _ =>
    Except.error ("[Errno 2] No such file or directory: " ++ p)

/-- One chunk of the streamed response body. -/
inductive Chunk
  | opening
  | event (e : StreamEvent)
  | closing (counts : SeverityCounts)
deriving DecidableEq

/-- The chunk sequence produced by `row_generator`, paired with the raised
exception message when the generator aborts: the opening marker of line 208
is yielded first in either case; only then are the sources opened. -/
def streamChunks (eng : Record → EngineResult) (srcs : List SourceHandle) :
    List Chunk × Option String :=
  match openSources srcs with
  | Except.error e => ([Chunk.opening], some e)
  | Except.ok cursors =>
    let events :=
      (multiplexLoop 0 cursors).map (fun t => processRow eng t.1 t.2.1 t.2.2)
    (Chunk.opening ::
        (events.map Chunk.event ++ [Chunk.closing (finalSeverityCounts events)]),
      none)

/-- The two response shapes of the endpoint: an immediate error JSON with a
status code, or a streamed body (with the exception message when the stream
aborted mid-way). -/
inductive EndpointResponse
  | errorJson (msg : String) (status : Nat)
  | streaming (chunks : List Chunk) (aborted : Option String)
deriving DecidableEq

/-- Whether the response is the immediate error JSON. -/
def isErrorJsonResp : EndpointResponse → Bool
  | EndpointResponse.errorJson _ _ => true
  | EndpointResponse.streaming _ _ => false

/-- The source normalization of lines 193-198: a non-empty `csv_paths` list
wins, otherwise a non-empty `csv_path` string, otherwise no source. -/
def normalizeSources : Option (List String) → Option String → List String
  | some ps, cp =>
    if ps.isEmpty then
      match cp with
      | some p => if p.isEmpty then [] else [p]
      | none => []
    else ps
  | none, cp =>
    match cp with
    | some p => if p.isEmpty then [] else [p]
    | none => []

/-- Opening one path against the filesystem. -/
def openHandle (fs : String → Option (List Record)) (p : String) : SourceHandle :=
  match fs p with
  | some rows => SourceHandle.openable rows p
  | none => SourceHandle.unopenable p

/-- `stream_csv_endpoint`: missing declaration fails fast with the 400 error
JSON of line 200; otherwise the streaming response is returned and the body
is produced lazily by `row_generator`. -/
def stream_csv_endpoint (csv_paths : Option (List String)) (csv_path : Option String)
    (fs : String → Option (List Record)) (eng : Record → EngineResult) :
    EndpointResponse :=
  let sources := normalizeSources csv_paths csv_path
  if sources.isEmpty then
    EndpointResponse.errorJson "csv_path or csv_paths is required" 400
  else
    let out := streamChunks eng (sources.map (openHandle fs))
    EndpointResponse.streaming out.1 out.2

inductive ToolOutcome
  | completeInfo
  | partialMissingRemediation
  | partialFew
  | silent
deriving DecidableEq

/-- Both sub-minimum outcomes are warnings whose message starts with
`Partial execution`. -/
def isPartialWarning : ToolOutcome → Bool
  | ToolOutcome.partialMissingRemediation => true
  | ToolOutcome.partialFew => true
  | ToolOutcome.completeInfo => false
  | ToolOutcome.silent => false

/-- Whether the outcome corresponds to any executed log statement. -/
def emitsLog : ToolOutcome → Bool
  | ToolOutcome.silent => false
  | _ => true

/-- The tool execution summary of lines 247-257: only POST requests are
summarized; at least 4 tools is logged complete, exactly 3 is the
partial-execution warning naming the missing remediation call, 1 or 2 is the
other partial-execution warning, and zero executes no log statement (the
comment of line 257 speaks of logging an error for a POST with 0 tools, but
no such statement exists in the code). -/
def toolSummaryOutcome (method : String) (tool_count : Nat) : ToolOutcome :=
  if method = "POST" then
    if tool_count ≥ 4 then ToolOutcome.completeInfo
    else if tool_count ≥ 3 then ToolOutcome.partialMissingRemediation
    else if tool_count > 0 then ToolOutcome.partialFew
    else ToolOutcome.silent
  else ToolOutcome.silent

/-- The per-request lifecycle of the `log_requests` middleware: reset the
counter to zero (line 193), process the request during which each analyzer
invocation increments the counter once (`_mark_tool_called`), pass the
response through unchanged, and derive the post-response summary outcome from
the final count. -/
def log_requests {α : Type} (initialCounter : Nat) (method : String)
    (toolInvocations : Nat) (response : α) : Nat × ToolOutcome × α :=
  let counterAfterReset := 0
  let counterAfterRun := counterAfterReset + toolInvocations
  (counterAfterRun, toolSummaryOutcome method counterAfterRun, response)

/-- `round(x, 6)` on the rational model. -/
def round6 (q : ℚ) : ℚ := ((round (q * 1000000) : ℤ) : ℚ) / 1000000

/-- One pricing tier of the `GEMINI_PRICING` table (lines 12-21). -/
structure PricingRate where
  input_tokens_per_1k : ℚ
  output_tokens_per_1k : ℚ
deriving DecidableEq

/-- The `GEMINI_PRICING` table of lines 12-21. -/
def GEMINI_PRICING : List (String × PricingRate) :=
  [("gemini-1.5-flash", ⟨0.000075, 0.0003⟩),
   ("gemini-1.5-pro", ⟨0.00125, 0.005⟩)]

/-- Tier resolution of lines 37-42: default flash; a name containing `pro`
selects pro, else a name containing `flash` selects flash. -/
def pricingKeyFor (model_name : String) : String :=
  if containsSub (pyLower model_name) "pro" then "gemini-1.5-pro"
  else if containsSub (pyLower model_name) "flash" then "gemini-1.5-flash"
  else "gemini-1.5-flash"

/-- `GEMINI_PRICING.get(pricing_key, GEMINI_PRICING["gemini-1.5-flash"])` of
line 44: table lookup with the flash entry as default. -/
def pricingFor (key : String) : PricingRate :=
  match GEMINI_PRICING.lookup key with
  | some p => p
  | none => ⟨0.000075, 0.0003⟩

/-- The cost breakdown dictionary returned by `calculate_cost`
(lines 51-60), without the echoed pricing-rate sub-dictionary. -/
structure CostInfo where
  model_used : String
  input_tokens : Nat
  output_tokens : Nat
  total_tokens : Nat
  input_cost_usd : ℚ
  output_cost_usd : ℚ
  total_cost_usd : ℚ
deriving DecidableEq

/-- `calculate_cost` of lines 34-60: resolve the tier, price each token count
per thousand, round each reported figure to 6 decimal places (the total is
the rounding of the unrounded sum, computed at line 49 before the rounding of
line 58). -/
def calculate_cost (model_name : String) (input_tokens output_tokens : Nat) :
    CostInfo :=
  let pricing_key := pricingKeyFor model_name
  let pricing := pricingFor pricing_key
  let input_cost := ((input_tokens : ℚ) / 1000) * pricing.input_tokens_per_1k
  let output_cost := ((output_tokens : ℚ) / 1000) * pricing.output_tokens_per_1k
  { model_used := pricing_key
    input_tokens := input_tokens
    output_tokens := output_tokens
    total_tokens := input_tokens + output_tokens
    input_cost_usd := round6 input_cost
    output_cost_usd := round6 output_cost
    total_cost_usd := round6 (input_cost + output_cost) }

/-- A JSON-like value in the session summary dictionary. -/
inductive JVal
  | num (q : ℚ)
  | str (s : String)
  | null
deriving DecidableEq

/-- One appended entry of `self.session_costs` (lines 72-84), restricted to
the fields the session summary reads. -/
structure LedgerEntry where
  timestamp : String
  input_tokens : Nat
  output_tokens : Nat
  total_cost_usd : ℚ
deriving DecidableEq

/-- The mutable state of one `CostTracker` (lines 24-28): the agent name, the
appended entries, and the running total. -/
structure CostTrackerState where
  agent_name : String
  session_costs : List LedgerEntry
  total_session_cost : ℚ
deriving DecidableEq

/-- `get_session_summary` of lines 108-126, returned as the literal key-value
list of the Python dictionary: an empty ledger returns only the three zero
fields of line 111; a non-empty ledger returns the nine-field dictionary of
lines 116-126. -/
def get_session_summary (t : CostTrackerState) : List (String × JVal) :=
  if t.session_costs.isEmpty then
    [("total_requests", JVal.num 0), ("total_cost_usd", JVal.num 0),
     ("average_cost_per_request", JVal.num 0)]
  else
    let total_input_tokens := (t.session_costs.map (fun e => e.input_tokens)).sum
    let total_output_tokens := (t.session_costs.map (fun e => e.output_tokens)).sum
    [("agent_name", JVal.str t.agent_name),
     ("total_requests", JVal.num t.session_costs.length),
     ("total_input_tokens", JVal.num total_input_tokens),
     ("total_output_tokens", JVal.num total_output_tokens),
     ("total_tokens", JVal.num (total_input_tokens + total_output_tokens)),
     ("total_cost_usd", JVal.num (round6 t.total_session_cost)),
     ("average_cost_per_request",
        JVal.num (round6 (t.total_session_cost / t.session_costs.length))),
     ("session_start",
        match t.session_costs.head? with
        | some e => JVal.str e.timestamp
        | none => JVal.null),
     ("session_end",
        match t.session_costs.getLast? with
        | some e => JVal.str e.timestamp
        | none => JVal.null)]

/-! ## Theorems: the claims settled against the embedding -/

theorem mem_of_chrListStarts {hay needle : List Char}
    (h : chrListStarts hay needle = true) : ∀ c ∈ needle, c ∈ hay := by
  induction hay generalizing needle with
  | nil =>
    cases needle with
    | nil => intro c hc; cases hc
    | cons d ds => simp [chrListStarts] at h
  | cons a as ih =>
    cases needle with
    | nil => intro c hc; cases hc
    | cons d ds =>
      simp only [chrListStarts, Bool.and_eq_true, decide_eq_true_eq] at h
      intro c hc
      rcases List.mem_cons.mp hc with hc | hc
      · exact List.mem_cons.mpr (Or.inl (hc.trans h.1.symm))
      · exact List.mem_cons.mpr (Or.inr (ih h.2 c hc))

theorem mem_of_chrListHasSub {hay needle : List Char}
    (h : chrListHasSub hay needle = true) : ∀ c ∈ needle, c ∈ hay := by
  induction hay with
  | nil =>
    cases needle with
    | nil => intro c hc; cases hc
    | cons d ds => simp [chrListHasSub, List.isEmpty] at h
  | cons a as ih =>
    simp only [chrListHasSub, Bool.or_eq_true] at h
    rcases h with h | h
    · exact mem_of_chrListStarts h
    · intro c hc
      exact List.mem_cons.mpr (Or.inr (ih h c hc))

theorem all_space_of_not_truthy {s : String} (h : truthyStripped s = false) :
    ∀ c ∈ s.data, isPySpace c = true := by
  intro c hc
  by_contra hcon
  have : s.data.any (fun c => !isPySpace c) = true :=
    List.any_eq_true.mpr ⟨c, hc, by simpa using hcon⟩
  rw [truthyStripped] at h
  rw [h] at this
  cases this

theorem toUpper_of_pySpace {c : Char} (h : isPySpace c = true) :
    c.toUpper = c := by
  simp only [isPySpace, Bool.or_eq_true, decide_eq_true_eq] at h
  rcases h with ((((h | h) | h) | h) | h) | h <;> subst h <;> decide

/-- When the text has no non-whitespace character, its upper-casing holds no
severity keyword. -/
theorem keyword_absent_of_not_truthy {s : String} (h : truthyStripped s = false)
    (l : Severity) : containsSub (pyUpper s) (sevKeyword l) = false := by
  by_contra hcon
  have hsub : chrListHasSub (pyUpper s).data (sevKeyword l).data = true := by
    rw [containsSub] at hcon
    exact Bool.of_not_eq_false hcon
  have hmem := mem_of_chrListHasSub hsub
  have hhead : (sevKeyword l).data.head? = some (sevKeyword l).data.head! := by
    cases l <;> rfl
  have hc : (sevKeyword l).data.head! ∈ (pyUpper s).data := by
    apply hmem
    cases l <;> simp [sevKeyword]
  have : ∀ c ∈ (pyUpper s).data, isPySpace c = true := by
    intro c hcmem
    have : (pyUpper s).data = s.data.map Char.toUpper := rfl
    rw [this] at hcmem
    rcases List.mem_map.mp hcmem with ⟨d, hd, hdc⟩
    have hsp := all_space_of_not_truthy h d hd
    rw [← hdc, toUpper_of_pySpace hsp]
    exact hsp
  have hbad := this _ hc
  cases l <;> simp only [sevKeyword] at hbad <;> revert hbad <;> decide

/-- Claim C4: for every response text containing no RISK ASSESSMENT marker,
the severity classifier returns the most severe level keyword present
anywhere in the text, checking case-insensitively in strict descending order
CRITICAL, HIGH, MEDIUM, LOW regardless of keyword position; empty text or
text with no keyword classifies as None. -/
theorem c4_keyword_priority_order (s : String)
    (h : containsSub (pyUpper s) "RISK ASSESSMENT:" = false) :
    classifySeverity s = mostSevereKeyword (pyUpper s) := by
  by_cases ht : truthyStripped s = true
  · by_cases hC : containsSub (pyUpper s) "CRITICAL" = true <;>
    by_cases hH : containsSub (pyUpper s) "HIGH" = true <;>
    by_cases hM : containsSub (pyUpper s) "MEDIUM" = true <;>
    by_cases hL : containsSub (pyUpper s) "LOW" = true <;>
      simp [classifySeverity, mostSevereKeyword, sevLevelsDesc, sevKeyword,
        ht, h, hC, hH, hM, hL]
  · have ht' : truthyStripped s = false := by simpa using ht
    have kC := keyword_absent_of_not_truthy ht' Severity.CRITICAL
    have kH := keyword_absent_of_not_truthy ht' Severity.HIGH
    have kM := keyword_absent_of_not_truthy ht' Severity.MEDIUM
    have kL := keyword_absent_of_not_truthy ht' Severity.LOW
    simp only [sevKeyword] at kC kH kM kL
    simp [classifySeverity, mostSevereKeyword, sevLevelsDesc, sevKeyword,
      ht', kC, kH, kM, kL]

/-- Witness for C4: a marker-free text containing both the word medium and
the word critical classifies as as CRITICAL by priority, and the empty text
classifies as None; both obtained by applying the C4 theorem at concrete
inputs. -/
theorem c4_keyword_priority_order_witness :
    classifySeverity "Both medium and critical findings" = some Severity.CRITICAL ∧
    classifySeverity "" = none := by
  constructor
  · rw [c4_keyword_priority_order "Both medium and critical findings" (by decide)]
    decide
  · rw [c4_keyword_priority_order "" (by decide)]
    decide

/-- Counterexample for claim C5: the concrete text below contains the marker
`RISK ASSESSMENT:` followed by a token that is none of the four levels, and
contains the keyword CRITICAL elsewhere, yet the classifier returns None
rather than falling back to the keyword search: lines 336-344 of
`machine1_log_analysis/agent_gemini.py` try only the four labelled forms once
the marker is present and never reach the keyword branch. -/
theorem c5_counterexample :
    containsSub (pyUpper "RISK ASSESSMENT: UNKNOWN. CRITICAL memory fault detected.")
      "RISK ASSESSMENT:" = true ∧
    containsSub (pyUpper "RISK ASSESSMENT: UNKNOWN. CRITICAL memory fault detected.")
      "RISK ASSESSMENT: CRITICAL" = false ∧
    containsSub (pyUpper "RISK ASSESSMENT: UNKNOWN. CRITICAL memory fault detected.")
      "RISK ASSESSMENT: HIGH" = false ∧
    containsSub (pyUpper "RISK ASSESSMENT: UNKNOWN. CRITICAL memory fault detected.")
      "RISK ASSESSMENT: MEDIUM" = false ∧
    containsSub (pyUpper "RISK ASSESSMENT: UNKNOWN. CRITICAL memory fault detected.")
      "RISK ASSESSMENT: LOW" = false ∧
    containsSub (pyUpper "RISK ASSESSMENT: UNKNOWN. CRITICAL memory fault detected.")
      "CRITICAL" = true ∧
    classifySeverity "RISK ASSESSMENT: UNKNOWN. CRITICAL memory fault detected." = none := by
  decide

/-- Claim C5 (amended): when the text contains the marker `RISK ASSESSMENT:`
but none of the four labelled forms `RISK ASSESSMENT: <LEVEL>` occurs, the
classifier returns None; it does not fall back to the keyword substring
search or consider keywords elsewhere in the text. -/
theorem c5_marker_without_level_yields_none (s : String)
    (hm : containsSub (pyUpper s) "RISK ASSESSMENT:" = true)
    (hC : containsSub (pyUpper s) "RISK ASSESSMENT: CRITICAL" = false)
    (hH : containsSub (pyUpper s) "RISK ASSESSMENT: HIGH" = false)
    (hM : containsSub (pyUpper s) "RISK ASSESSMENT: MEDIUM" = false)
    (hL : containsSub (pyUpper s) "RISK ASSESSMENT: LOW" = false) :
    classifySeverity s = none := by
  by_cases ht : truthyStripped s = true
  · simp [classifySeverity, ht, hm, hC, hH, hM, hL]
  · have ht' : truthyStripped s = false := by simpa using ht
    simp [classifySeverity, ht']

/-- Witness for the amended C5: the amended theorem applied at a concrete
marker-bearing text with an unknown level token. -/
theorem c5_marker_without_level_yields_none_witness :
    classifySeverity "RISK ASSESSMENT: SEVERE. High load observed." = none :=
  c5_marker_without_level_yields_none
    "RISK ASSESSMENT: SEVERE. High load observed."
    (by decide) (by decide) (by decide) (by decide) (by decide)

theorem multiplexPass_weight (w : Record → Nat) (rc : Nat) (cs : List Cursor) :
    ((multiplexPass rc cs).1.map (fun t => w t.2.2)).sum
      + cursorsWeight w (multiplexPass rc cs).2.1 = cursorsWeight w cs := by
  induction cs generalizing rc with
  | nil => simp [multiplexPass, cursorsWeight]
  | cons c rest ih =>
    cases hr : c.rows with
    | nil =>
      simp only [multiplexPass, hr, cursorsWeight, List.map_cons, List.sum_cons]
      have := ih rc
      simp only [cursorsWeight] at this
      simpa using this
    | cons r more =>
      simp only [multiplexPass, hr, cursorsWeight, List.map_cons, List.sum_cons]
      have := ih (rc + 1)
      simp only [cursorsWeight] at this
      omega

theorem multiplexLoop_weight (w : Record → Nat) :
    ∀ (n rc : Nat) (cs : List Cursor), passMeasure cs ≤ n →
      ((multiplexLoop rc cs).map (fun t => w t.2.2)).sum = cursorsWeight w cs := by
  intro n
  induction n with
  | zero =>
    intro rc cs hle
    have hnil : cs = [] := by
      cases cs with
      | nil => rfl
      | cons c rest =>
        simp only [passMeasure, List.map_cons, List.sum_cons] at hle
        omega
    subst hnil
    simp [multiplexLoop, cursorsWeight]
  | succ n ih =>
    intro rc cs hle
    by_cases hcs : cs = []
    · subst hcs
      simp [multiplexLoop, cursorsWeight]
    · rw [multiplexLoop, dif_neg hcs]
      simp only [List.map_append, List.sum_append]
      rw [ih _ _ (by have := multiplexPass_measure_lt rc cs hcs; omega)]
      exact multiplexPass_weight w rc cs

/-- Every per-record weight summed over the merged stream equals the same
weight summed source by source. -/
theorem multiplex_weight (w : Record → Nat) (sources : List (List Record × String)) :
    ((multiplex sources).map (fun t => w t.2.2)).sum
      = (sources.map (fun s => (s.1.map w).sum)).sum := by
  rw [multiplex, multiplexLoop_weight w (passMeasure _) 0 _ le_rfl]
  simp [cursorsWeight, List.map_map, Function.comp_def]

theorem sum_map_ones {α : Type} (l : List α) :
    (l.map (fun _ => (1 : Nat))).sum = l.length := by
  induction l <;> simp [*] <;> omega

theorem countP_eq_sum_map {α : Type} (l : List α) (p : α → Bool) :
    l.countP p = (l.map (fun a => if p a then 1 else 0)).sum := by
  induction l with
  | nil => simp
  | cons a l ih => simp [List.countP_cons, ih]; omega

theorem processRow_isError (eng : Record → EngineResult) (n : Nat) (src : String)
    (r : Record) : isErrorEvent (processRow eng n src r) = (eng r).isRaised := by
  rcases h : eng r with _ | _ <;> simp [processRow, h, isErrorEvent, EngineResult.isRaised]

/-- Claim C2: for every record read from any source the stream emits exactly
one stream event, success or error: the merged stream produces as many events
as there are records in all sources, the error events are exactly the
records on which the engine turn raised, and a record whose engine turn
raises yields precisely the error payload of that record, so no single record
failure terminates or truncates the stream. -/
theorem c2_one_event_per_record (eng : Record → EngineResult)
    (srcs : List (List Record × String)) :
    (rowGeneratorEvents eng srcs).length = (srcs.map (fun s => s.1.length)).sum ∧
    (rowGeneratorEvents eng srcs).countP isErrorEvent
      = (srcs.map (fun s => s.1.countP (fun r => (eng r).isRaised))).sum ∧
    (∀ (n : Nat) (src : String) (r : Record) (msg : String),
      eng r = EngineResult.raised msg →
        processRow eng n src r = StreamEvent.error n src (deviceId r) msg) := by
  refine ⟨?_, ?_, ?_⟩
  · rw [rowGeneratorEvents, List.length_map, ← sum_map_ones (multiplex srcs)]
    rw [multiplex_weight (fun _ => 1) srcs]
    simp [sum_map_ones]
  · rw [rowGeneratorEvents, countP_eq_sum_map, List.map_map]
    have hfun : ((fun a => if isErrorEvent a then 1 else 0) ∘
        fun t : Nat × String × Record => processRow eng t.1 t.2.1 t.2.2)
          = fun t : Nat × String × Record =>
            (fun r => if (eng r).isRaised then 1 else 0) t.2.2 := by
      funext t
      simp [Function.comp, processRow_isError]
    rw [hfun, multiplex_weight (fun r => if (eng r).isRaised then 1 else 0) srcs]
    simp [countP_eq_sum_map]
  · intro n src r msg h
    simp [processRow, h]

/-- Witness for C2: the C2 theorem applied to one concrete source whose
single record makes the engine raise; the stream still emits exactly that
record error event. -/
theorem c2_one_event_per_record_witness :
    processRow (fun _ => EngineResult.raised "boom") 1 "a.csv"
        [("Device_ID", "D1")]
      = StreamEvent.error 1 "a.csv" "D1" "boom" :=
  (c2_one_event_per_record (fun _ => EngineResult.raised "boom")
      [([[("Device_ID", "D1")]], "a.csv")]).2.2 1 "a.csv" [("Device_ID", "D1")]
    "boom" rfl

/-- Claim C6: the multiplexer interleaves sources round-robin in source-list
order and removes a source from the rotation when it is exhausted: for two
sources of lengths 3 and 5 the merged stream order, by sequence number 1 to
8, alternates between the sources until the first is exhausted and then
drains the second. -/
theorem c6_round_robin_order (a0 a1 a2 b0 b1 b2 b3 b4 : Record) (p q : String) :
    multiplex [([a0, a1, a2], p), ([b0, b1, b2, b3, b4], q)] =
      [(1, p, a0), (2, q, b0), (3, p, a1), (4, q, b1), (5, p, a2), (6, q, b2),
        (7, q, b3), (8, q, b4)] := by
  simp [multiplex, multiplexLoop, multiplexPass]

theorem foldl_countsStep (evs : List StreamEvent) (acc : SeverityCounts) :
    evs.foldl countsStep acc =
      ⟨acc.low + evs.countP (eventSeverityIs (some Severity.LOW)),
       acc.medium + evs.countP (eventSeverityIs (some Severity.MEDIUM)),
       acc.high + evs.countP (eventSeverityIs (some Severity.HIGH)),
       acc.critical + evs.countP (eventSeverityIs (some Severity.CRITICAL))⟩ := by
  induction evs generalizing acc with
  | nil => simp
  | cons e evs ih =>
    rw [List.foldl_cons, ih]
    rcases e with ⟨n, src, dev, resp, sev⟩ | ⟨n, src, dev, msg⟩
    · rcases sev with _ | l
      · simp [countsStep, bumpSeverityCounts, eventSeverityIs, List.countP_cons]
      · cases l <;>
          simp [countsStep, bumpSeverityCounts, eventSeverityIs,
            List.countP_cons] <;> omega
    · simp [countsStep, eventSeverityIs, List.countP_cons]

theorem countP_severity_partition (evs : List StreamEvent) :
    evs.countP (eventSeverityIs (some Severity.LOW))
      + evs.countP (eventSeverityIs (some Severity.MEDIUM))
      + evs.countP (eventSeverityIs (some Severity.HIGH))
      + evs.countP (eventSeverityIs (some Severity.CRITICAL))
      = evs.countP isClassifiedSuccess := by
  induction evs with
  | nil => simp
  | cons e evs ih =>
    rcases e with ⟨n, src, dev, resp, sev⟩ | ⟨n, src, dev, msg⟩
    · rcases sev with _ | l
      · simpa [eventSeverityIs, isClassifiedSuccess, List.countP_cons] using ih
      · cases l <;>
          simp [eventSeverityIs, isClassifiedSuccess, List.countP_cons, ← ih] <;>
          omega
    · simpa [eventSeverityIs, isClassifiedSuccess, List.countP_cons] using ih

/-- Claim C10: a success event whose severity is null is part of the results
array yet increments no bucket: after any completed stream, each of the four
severity counts equals the number of success events classified with exactly
that severity, their sum equals the number of success events with non-null
severity, and the sum can be strictly below the total number of success
events. -/
theorem c10_severity_counts :
    (∀ (eng : Record → EngineResult) (srcs : List (List Record × String)),
      (finalSeverityCounts (rowGeneratorEvents eng srcs)).low
          = (rowGeneratorEvents eng srcs).countP (eventSeverityIs (some Severity.LOW)) ∧
      (finalSeverityCounts (rowGeneratorEvents eng srcs)).medium
          = (rowGeneratorEvents eng srcs).countP (eventSeverityIs (some Severity.MEDIUM)) ∧
      (finalSeverityCounts (rowGeneratorEvents eng srcs)).high
          = (rowGeneratorEvents eng srcs).countP (eventSeverityIs (some Severity.HIGH)) ∧
      (finalSeverityCounts (rowGeneratorEvents eng srcs)).critical
          = (rowGeneratorEvents eng srcs).countP (eventSeverityIs (some Severity.CRITICAL)) ∧
      (finalSeverityCounts (rowGeneratorEvents eng srcs)).low
          + (finalSeverityCounts (rowGeneratorEvents eng srcs)).medium
          + (finalSeverityCounts (rowGeneratorEvents eng srcs)).high
          + (finalSeverityCounts (rowGeneratorEvents eng srcs)).critical
          = (rowGeneratorEvents eng srcs).countP isClassifiedSuccess) ∧
    (∃ (eng : Record → EngineResult) (srcs : List (List Record × String)),
      (finalSeverityCounts (rowGeneratorEvents eng srcs)).low
          + (finalSeverityCounts (rowGeneratorEvents eng srcs)).medium
          + (finalSeverityCounts (rowGeneratorEvents eng srcs)).high
          + (finalSeverityCounts (rowGeneratorEvents eng srcs)).critical
          < (rowGeneratorEvents eng srcs).countP isSuccessEvent) := by
  constructor
  · intro eng srcs
    have hfold := foldl_countsStep (rowGeneratorEvents eng srcs) ⟨0, 0, 0, 0⟩
    rw [finalSeverityCounts, hfold]
    refine ⟨by simp, by simp, by simp, by simp, ?_⟩
    simpa using countP_severity_partition (rowGeneratorEvents eng srcs)
  · refine ⟨fun _ => EngineResult.ok "all good" 0 0, [([[("Device_ID", "D1")]], "a.csv")], ?_⟩
    have hev : rowGeneratorEvents (fun _ => EngineResult.ok "all good" 0 0)
        [([[("Device_ID", "D1")]], "a.csv")]
        = [StreamEvent.success 1 "a.csv" "D1" "all good" none] := by
      simp [rowGeneratorEvents, multiplex, multiplexLoop, multiplexPass,
        processRow, deviceId]
      decide
    rw [hev]
    decide

/-- Counterexample for claim C1: a record whose engine turn classifies as
HIGH severity (the gate condition of line 364 holds) while the engine issued
zero inter-agent forwarding calls during the turn.  The orchestration layer
issues no downstream call of its own: lines 363-389 only log the consultation
requirement and search the response text for indicator substrings, and
line 388 explicitly warns when no consultation happened.  Hence a processed
record of MEDIUM/HIGH/CRITICAL severity does not imply exactly one downstream
call. -/
theorem c1_counterexample :
    processRow (fun _ => EngineResult.ok "HIGH risk detected" 0 0) 1 "s.csv"
        [("Device_ID", "D1")]
      = StreamEvent.success 1 "s.csv" "D1" "HIGH risk detected"
          (some Severity.HIGH) ∧
    a2aRequired (some Severity.HIGH) = true ∧
    downstreamCalls (fun _ => EngineResult.ok "HIGH risk detected" 0 0)
        [("Device_ID", "D1")] = 0 := by
  refine ⟨?_, by decide, by decide⟩
  simp only [processRow, deviceId]
  norm_num
  decide

/-- Claim C1 (amended): the forwarding-gate condition of line 364 holds
precisely for classified severity MEDIUM, HIGH or CRITICAL (so LOW and null
severities trigger no forwarding action at this stage), but the stage
delegates the downstream call to the reasoning-engine turn itself: the number
of inter-agent forwarding calls issued while a record is processed equals
whatever the engine issued during that turn, independent of the severity
classified afterwards, and is not guaranteed to be one when the gate
condition holds. -/
theorem c1_gate_condition_and_delegation :
    (∀ sev : Option Severity,
      a2aRequired sev = true ↔
        sev = some Severity.MEDIUM ∨ sev = some Severity.HIGH ∨
          sev = some Severity.CRITICAL) ∧
    (∀ (text : String) (fn k : Nat) (row : Record),
      downstreamCalls (fun _ => EngineResult.ok text fn k) row = k) := by
  constructor
  · intro sev
    rcases sev with _ | l
    · simp [a2aRequired]
    · cases l <;> simp [a2aRequired]
  · intro text fn k row
    rfl

/-- Counterexample for claim C3: declaring one source that cannot be opened
does not fail fast with an error JSON; the response is the streaming one, the
opening marker chunk is emitted before the open is attempted, and only then
does the stream abort with the raised open error, leaving a partial stream
already started. -/
theorem c3_counterexample :
    stream_csv_endpoint none (some "data.csv") (fun _ => none)
        (fun _ => EngineResult.ok "" 0 0)
      = EndpointResponse.streaming [Chunk.opening]
          (some "[Errno 2] No such file or directory: data.csv") ∧
    isErrorJsonResp
        (stream_csv_endpoint none (some "data.csv") (fun _ => none)
          (fun _ => EngineResult.ok "" 0 0)) = false := by
  constructor <;> rfl

/-- Claim C3 (amended): only a request declaring no source fails fast, with
the error JSON and client-error status 400; when a declared source cannot be
opened the caller instead receives the streaming response whose body consists
of the opening marker already emitted before the open was attempted, followed
by the abort carrying the open error: no record events are emitted, but a
partial stream has started and no error JSON is returned. -/
theorem c3_failfast_only_for_missing_declaration :
    (∀ (fs : String → Option (List Record)) (eng : Record → EngineResult),
      stream_csv_endpoint none none fs eng
        = EndpointResponse.errorJson "csv_path or csv_paths is required" 400) ∧
    (∀ (paths : List String) (fs : String → Option (List Record))
        (eng : Record → EngineResult) (e : String),
      paths ≠ [] →
      openSources (paths.map (openHandle fs)) = Except.error e →
      stream_csv_endpoint (some paths) none fs eng
        = EndpointResponse.streaming [Chunk.opening] (some e)) := by
  constructor
  · intro fs eng
    rfl
  · intro paths fs eng e hne hopen
    cases paths with
    | nil => exact absurd rfl hne
    | cons p ps =>
      simp only [stream_csv_endpoint, normalizeSources, List.isEmpty_cons,
        Bool.false_eq_true, if_false, streamChunks, hopen]

/-- Witness for the amended C3: the amended theorem applied at a concrete
path list over a filesystem that opens nothing. -/
theorem c3_failfast_only_for_missing_declaration_witness :
    stream_csv_endpoint (some ["b.csv"]) none (fun _ => none)
        (fun _ => EngineResult.ok "done" 0 0)
      = EndpointResponse.streaming [Chunk.opening]
          (some "[Errno 2] No such file or directory: b.csv") :=
  c3_failfast_only_for_missing_declaration.2 ["b.csv"] (fun _ => none)
    (fun _ => EngineResult.ok "done" 0 0)
    "[Errno 2] No such file or directory: b.csv" (by simp) rfl

/-- Claim C7 is a code bug: the counter is reset at request start (the final
count ignores the initial counter value), increments once per invocation, a
count of at least 4 logs complete and a nonzero count below 4 logs a
partial-execution warning, and the response is never blocked; but a POST
request with zero tool invocations executes no log statement at all, although
the comment of line 257 and the claim both call for a missed-execution
signal.  Evaluated at the failing input: stale counter 7, POST, zero
invocations. -/
theorem c7_zero_count_logs_nothing :
    log_requests 7 "POST" 0 "response-body" = (0, ToolOutcome.silent, "response-body") ∧
    emitsLog ToolOutcome.silent = false ∧
    log_requests 7 "POST" 4 "response-body"
      = (4, ToolOutcome.completeInfo, "response-body") ∧
    log_requests 7 "POST" 2 "response-body"
      = (2, ToolOutcome.partialFew, "response-body") ∧
    log_requests 7 "POST" 3 "response-body"
      = (3, ToolOutcome.partialMissingRemediation, "response-body") ∧
    isPartialWarning ToolOutcome.partialFew = true ∧
    isPartialWarning ToolOutcome.partialMissingRemediation = true := by
  refine ⟨?_, rfl, ?_, ?_, ?_, rfl, rfl⟩ <;> rfl

/-- Claim C8: `calculate_cost` resolves a pricing tier from the model name,
defaulting to the flash tier when neither `pro` nor `flash` matches; the cost
is input tokens per thousand times the tier input rate plus output tokens per
thousand times the tier output rate, with each reported intermediate rounded
to 6 decimal places; and at the flash tier with 1000 input and 1000 output
tokens the total cost is 0.000375 USD. -/
theorem c8_calculate_cost :
    (∀ name : String,
      containsSub (pyLower name) "pro" = false →
      containsSub (pyLower name) "flash" = false →
      pricingKeyFor name = "gemini-1.5-flash") ∧
    (∀ (name : String) (tin tout : Nat),
      (calculate_cost name tin tout).input_cost_usd
          = round6 (((tin : ℚ) / 1000) *
              (pricingFor (pricingKeyFor name)).input_tokens_per_1k) ∧
      (calculate_cost name tin tout).output_cost_usd
          = round6 (((tout : ℚ) / 1000) *
              (pricingFor (pricingKeyFor name)).output_tokens_per_1k) ∧
      (calculate_cost name tin tout).total_cost_usd
          = round6 (((tin : ℚ) / 1000) *
                (pricingFor (pricingKeyFor name)).input_tokens_per_1k
              + ((tout : ℚ) / 1000) *
                (pricingFor (pricingKeyFor name)).output_tokens_per_1k)) ∧
    (calculate_cost "gemini-1.5-flash" 1000 1000).total_cost_usd = 0.000375 := by
  refine ⟨?_, ?_, ?_⟩
  · intro name h1 h2
    simp [pricingKeyFor, h1, h2]
  · intro name tin tout
    exact ⟨rfl, rfl, rfl⟩
  · have hval : (calculate_cost "gemini-1.5-flash" 1000 1000).total_cost_usd
        = round6 ((1000 : ℚ) / 1000 * 0.000075 + (1000 : ℚ) / 1000 * 0.0003) := rfl
    rw [hval,
      show ((1000 : ℚ) / 1000 * 0.000075 + (1000 : ℚ) / 1000 * 0.0003)
        = 0.000375 by norm_num,
      round6,
      show ((0.000375 : ℚ) * 1000000) = ((375 : ℤ) : ℚ) by norm_num,
      round_intCast]
    norm_num

/-- Witness for C8: the C8 theorem applied at a model name matching no tier
resolves to the default flash tier. -/
theorem c8_calculate_cost_witness :
    pricingKeyFor "gpt-4" = "gemini-1.5-flash" :=
  c8_calculate_cost.1 "gpt-4" (by decide) (by decide)

/-- Counterexample for claim C9: on an empty ledger the summary dictionary
does not contain the token totals or the timestamps at all (with any value,
zero or empty); only the three fields of line 111 are present. -/
theorem c9_counterexample :
    (get_session_summary ⟨"log_analysis_agent", [], 0⟩).lookup "total_input_tokens"
        = none ∧
    (get_session_summary ⟨"log_analysis_agent", [], 0⟩).lookup "total_output_tokens"
        = none ∧
    (get_session_summary ⟨"log_analysis_agent", [], 0⟩).lookup "session_start"
        = none ∧
    (get_session_summary ⟨"log_analysis_agent", [], 0⟩).lookup "session_end"
        = none ∧
    (get_session_summary ⟨"log_analysis_agent", [], 0⟩).lookup "total_requests"
        = some (JVal.num 0) ∧
    (get_session_summary ⟨"log_analysis_agent", [], 0⟩).lookup "total_cost_usd"
        = some (JVal.num 0) ∧
    (get_session_summary ⟨"log_analysis_agent", [], 0⟩).lookup "average_cost_per_request"
        = some (JVal.num 0) := by
  refine ⟨rfl, rfl, rfl, rfl, rfl, rfl, rfl⟩

/-- Claim C9 (amended): on an empty ledger `get_session_summary` returns
exactly the three fields total_requests, total_cost_usd and
average_cost_per_request, all zero; the token totals and the first/last
timestamps are present only when the ledger is non-empty. -/
theorem c9_empty_summary_three_fields :
    (∀ (name : String) (tc : ℚ),
      get_session_summary ⟨name, [], tc⟩
        = [("total_requests", JVal.num 0), ("total_cost_usd", JVal.num 0),
           ("average_cost_per_request", JVal.num 0)]) ∧
    (∀ (name : String) (tc : ℚ) (e : LedgerEntry) (es : List LedgerEntry),
      ((get_session_summary ⟨name, e :: es, tc⟩).lookup "total_input_tokens").isSome
          = true ∧
      ((get_session_summary ⟨name, e :: es, tc⟩).lookup "total_output_tokens").isSome
          = true ∧
      (get_session_summary ⟨name, e :: es, tc⟩).lookup "session_start"
          = some (JVal.str e.timestamp) ∧
      ((get_session_summary ⟨name, e :: es, tc⟩).lookup "session_end").isSome
          = true) := by
  constructor
  · intro name tc
    rfl
  · intro name tc e es
    refine ⟨?_, ?_, ?_, ?_⟩ <;>
      simp [get_session_summary, List.lookup]

end A2AWorkflow

